import Mathlib

/-!
Shallow embedding of the Newsletter RESTful service (`src/server/app.py`).

The service exposes CRUD operations over one entity, `Newsletter`, stored in
a relational store.  `app.py` imports `db` and `Newsletter` from a `models`
module that is not part of the snapshot; the entity's columns, its
serializer `to_dict`, and the auto-incrementing primary key are modelled
from the spec (sections 3, 4.1 and 6) and marked as such below.  Everything
else (the five request handlers) is translated directly from `app.py`.

Conventions of the embedding:
* form-encoded request data is a list of key/value string pairs; indexing
  `request.form[k]` returns the first value for `k` and raises
  `BadRequestKeyError` when `k` is absent (werkzeug `MultiDict` semantics);
  iterating `request.form` yields each distinct key once;
* each handler is a function `... → Store → Except HandlerError Response × Store`:
  an `Except.error` is a Python exception escaping the handler body.
  flask_restful renders an `HTTPException` such as `BadRequestKeyError` with
  its own status (400); any other exception surfaces as a 500-class server
  error.  In both cases the pending session is never committed, so the store
  is returned unchanged;
* SQLAlchemy instance attributes that are not mapped columns, written by
  `setattr` with a plain data-style unknown name, are transient: they are
  neither persisted on commit nor emitted by `to_dict`, so they do not
  appear in the store model.  Names with special meaning to Python or to
  the request machinery are different: `setattr(record, "__class__", v)`
  raises `TypeError` in the loop, and an instance attribute named
  `to_dict` shadows the serializer so the response step raises — in both
  cases the real handler fails with a 500-class error.  The catch-all
  branch of the modelled `setattr` is faithful only for plain names, and
  no theorem below asserts the handler's response at a special name;
* assigning a numeric string to the integer `id` column is coerced to the
  integer by SQLite's INTEGER column affinity; assigning a non-numeric
  string to `id` (which SQLite would keep as text, making the row
  unreachable by any integer id) is outside the model and modelled as
  leaving `id` unchanged.  No claim depends on that corner.
-/

/-- Modelled from the spec: the `Newsletter` entity of the missing `models`
module.  Spec section 3: `id` integer primary key, `title` text, `body`
text; no other columns. -/
structure Newsletter where
  id : Nat
  title : String
  body : String
deriving Repr, DecidableEq

/-- A serialized record: a flat structure with exactly the fields
`id`, `title`, `body` (spec section 4.1, Serialization). -/
structure RecordDict where
  id : Nat
  title : String
  body : String
deriving Repr, DecidableEq

/-- Modelled from the spec: `Newsletter.to_dict` of the missing `models`
module.  Spec section 4.1: every returned record is emitted as a flat
structure with exactly the fields `id`, `title`, `body`. -/
def Newsletter.to_dict (n : Newsletter) : RecordDict :=
  ⟨n.id, n.title, n.body⟩

/-- Form-encoded request data: flat key/value text pairs. -/
abbrev Form := List (String × String)

/-- `request.form.get(k)`-style lookup: first value bound to `k`, if any. -/
def Form.get? (f : Form) (k : String) : Option String :=
  (f.find? (fun kv => kv.1 == k)).map (fun kv => kv.2)

/-- The distinct keys of the form, in first-occurrence order: iterating a
werkzeug `MultiDict` yields each key once. -/
def Form.keys (f : Form) : List String :=
  (f.map (fun kv => kv.1)).dedup

/-- Exceptions that can escape a handler body. -/
inductive HandlerError where
  /-- werkzeug `BadRequestKeyError`: `request.form[k]` with `k` absent.
  An `HTTPException`, rendered by flask_restful with status 400. -/
  | badRequestKeyError (key : String)
  /-- Python `AttributeError`: attribute access on `None`, e.g.
  `None.to_dict()` or `setattr(None, ...)`.  Surfaces as a 500-class
  server error. -/
  | attributeError
  /-- SQLAlchemy `UnmappedInstanceError`: `db.session.add(None)` or
  `db.session.delete(None)`.  Surfaces as a 500-class server error. -/
  | unmappedInstanceError
  /-- SQLAlchemy `IntegrityError`: committing an UPDATE that would violate
  the primary-key uniqueness constraint.  Surfaces as a 500-class error. -/
  | integrityError
deriving Repr, DecidableEq

/-- HTTP status the framework attaches to an escaped exception. -/
def HandlerError.status : HandlerError → Nat
  | .badRequestKeyError _ => 400
  | _ => 500

/-- `request.form[k]`: first value for `k`, or `BadRequestKeyError`. -/
def Form.getItem (f : Form) (k : String) : Except HandlerError String :=
  match f.get? k with
  | some v => Except.ok v
  | none => Except.error (HandlerError.badRequestKeyError k)

/-- Body of an HTTP response produced by a handler. -/
inductive RespBody where
  | dict (d : RecordDict)
  | dictList (l : List RecordDict)
  | message (m : String)
deriving Repr, DecidableEq

/-- An HTTP response: body plus status code (`make_response(body, status)`). -/
structure Response where
  body : RespBody
  status : Nat
deriving Repr, DecidableEq

/-- The persisted state: the `newsletters` table plus, modelled from the
spec, the auto-increment counter for the integer primary key
("auto-incrementing integer key", spec section 6). -/
structure Store where
  nextId : Nat
  rows : List Newsletter
deriving Repr, DecidableEq

/-- The store of a fresh database: no rows, ids start at 1. -/
def Store.empty : Store := ⟨1, []⟩

/-- Store invariant: primary-key ids are pairwise distinct and below the
auto-increment counter. -/
def Store.wf (s : Store) : Prop :=
  (s.rows.map (fun r => r.id)).Nodup ∧ ∀ r ∈ s.rows, r.id < s.nextId

instance (s : Store) : Decidable s.wf := by
  unfold Store.wf; infer_instance

/-- `Newsletter.query.filter_by(id=i).first()` /
`Newsletter.query.filter(Newsletter.id == i).first()`. -/
def Store.firstById (s : Store) (i : Nat) : Option Newsletter :=
  s.rows.find? (fun r => r.id == i)

/-- `Home.get` (app.py lines 21-32). -/
def home_get (s : Store) : Except HandlerError Response × Store :=
  (Except.ok ⟨RespBody.message "Welcome to the Newsletter RESTful API", 200⟩, s)

/-- `Newsletters.get` (app.py lines 38-47): serialize every row, status 200. -/
def newsletters_get (s : Store) : Except HandlerError Response × Store :=
  (Except.ok ⟨RespBody.dictList (s.rows.map Newsletter.to_dict), 200⟩, s)

/-- `Newsletters.post` (app.py lines 49-66): read the required form fields
`title` then `body` (each raising `BadRequestKeyError` when absent, before
anything is persisted), add a new row, commit — the store assigns the next
id — and return the serialized record with status 201. -/
def newsletters_post (form : Form) (s : Store) :
    Except HandlerError Response × Store :=
  match form.getItem "title" with
  | Except.error e => (Except.error e, s)
  | Except.ok t =>
    match form.getItem "body" with
    | Except.error e => (Except.error e, s)
    | Except.ok b =>
      let new_record : Newsletter := ⟨s.nextId, t, b⟩
      (Except.ok ⟨RespBody.dict new_record.to_dict, 201⟩,
       ⟨s.nextId + 1, s.rows ++ [new_record]⟩)

/-- `NewsletterByID.get` (app.py lines 73-82): look the row up by id and
serialize it with status 200.  There is no presence check: on a miss,
`.first()` is `None` and `None.to_dict()` raises `AttributeError`. -/
def newsletter_by_id_get (i : Nat) (s : Store) :
    Except HandlerError Response × Store :=
  match s.firstById i with
  | none => (Except.error HandlerError.attributeError, s)
  | some n => (Except.ok ⟨RespBody.dict n.to_dict, 200⟩, s)

deriving instance DecidableEq for Except

/-- SQLite INTEGER column affinity applied to a bound text value: a string
of decimal digits is converted to the integer it denotes, anything else is
not converted. -/
def sqliteIntCoerce? (v : String) : Option Nat :=
  if v.data ≠ [] ∧ v.data.all Char.isDigit then
    some (v.data.foldl (fun acc c => acc * 10 + (c.toNat - 48)) 0)
  else none

/-- `setattr(record, attr, v)` with `v` the submitted string:
`title` and `body` are mapped text columns, written verbatim; `id` is the
mapped integer column, whose value SQLite's INTEGER affinity coerces from a
numeric string (a non-numeric string is outside the model, see the header).
A plain data-style unknown name (such as `foo`) becomes a transient,
unmapped instance attribute, neither persisted nor serialized, hence a
no-op on the store model.  The catch-all branch is faithful only for such
plain names: special attribute names (`__class__`, `__dict__`, `to_dict`,
...) make the real handler raise a 500-class error instead (see the
header), and no theorem in this file asserts the handler's response at a
special name. -/
def Newsletter.setattr (n : Newsletter) (attr v : String) : Newsletter :=
  if attr = "title" then { n with title := v }
  else if attr = "body" then { n with body := v }
  else if attr = "id" then { n with id := (sqliteIntCoerce? v).getD n.id }
  else n

/-- The patch loop of `NewsletterByID.patch` (app.py lines 88-89), over an
explicit key list: `for attr in request.form: setattr(record, attr, request.form[attr])`. -/
def applyKeys (f : Form) (L : List String) (n : Newsletter) : Newsletter :=
  L.foldl (fun r attr => r.setattr attr ((f.get? attr).getD "")) n

/-- The record after the patch loop: every distinct form key written onto
the record via `setattr`. -/
def patchRecord (f : Form) (n : Newsletter) : Newsletter :=
  applyKeys f f.keys n

/-- `NewsletterByID.patch` (app.py lines 84-100): look the row up by id
(no presence check: with `None`, a non-empty form makes `setattr` raise
`AttributeError`, an empty form reaches `db.session.add(None)` which raises
`UnmappedInstanceError`); write every submitted field onto the record;
commit (an id change colliding with another row's primary key raises
`IntegrityError`); return the serialized record with status 201. -/
def newsletter_by_id_patch (i : Nat) (form : Form) (s : Store) :
    Except HandlerError Response × Store :=
  match s.firstById i with
  | none =>
    (Except.error
      (if form.isEmpty then HandlerError.unmappedInstanceError
       else HandlerError.attributeError), s)
  | some n =>
    let n' := patchRecord form n
    if (n'.id != n.id) && s.rows.any (fun r => r.id == n'.id) then
      (Except.error HandlerError.integrityError, s)
    else
      (Except.ok ⟨RespBody.dict n'.to_dict, 201⟩,
       ⟨s.nextId, s.rows.map (fun r => if r.id == n.id then n' else r)⟩)

/-- `NewsletterByID.delete` (app.py lines 102-113): look the row up by id
(no presence check: `db.session.delete(None)` raises
`UnmappedInstanceError`), delete it, commit, and return a fixed
confirmation message with status 200. -/
def newsletter_by_id_delete (i : Nat) (s : Store) :
    Except HandlerError Response × Store :=
  match s.firstById i with
  | none => (Except.error HandlerError.unmappedInstanceError, s)
  | some n =>
    (Except.ok ⟨RespBody.message "record successfully deleted", 200⟩,
     ⟨s.nextId, s.rows.filter (fun r => !(r.id == n.id))⟩)

/-- `N` successive create requests, the `k`-th submitting title `ts k` and
body `bs k`. -/
def createMany (ts bs : Nat → String) : Nat → Store → Store
  | 0, s => s
  | k + 1, s =>
    (newsletters_post [("title", ts k), ("body", bs k)] (createMany ts bs k s)).2

/-! ### Helper lemmas -/

theorem Newsletter.eq_of_fields {a b : Newsletter}
    (h1 : a.id = b.id) (h2 : a.title = b.title) (h3 : a.body = b.body) :
    a = b := by
  cases a; cases b; simp_all

theorem Newsletter.setattr_title (n : Newsletter) (a v : String) :
    (n.setattr a v).title = if a = "title" then v else n.title := by
  unfold Newsletter.setattr
  by_cases h1 : a = "title"
  · simp [h1]
  · simp only [if_neg h1]
    by_cases h2 : a = "body"
    · simp [h2, h1]
    · simp only [if_neg h2]
      by_cases h3 : a = "id" <;> simp [h3, h1]

theorem Newsletter.setattr_body (n : Newsletter) (a v : String) :
    (n.setattr a v).body = if a = "body" then v else n.body := by
  unfold Newsletter.setattr
  by_cases h1 : a = "title"
  · simp [h1]
  · simp only [if_neg h1]
    by_cases h2 : a = "body"
    · simp [h2]
    · simp only [if_neg h2]
      by_cases h3 : a = "id" <;> simp [h3, h2]

theorem Newsletter.setattr_id (n : Newsletter) (a v : String) :
    (n.setattr a v).id
      = if a = "id" then (sqliteIntCoerce? v).getD n.id else n.id := by
  unfold Newsletter.setattr
  by_cases h1 : a = "title"
  · simp [h1]
  · simp only [if_neg h1]
    by_cases h2 : a = "body"
    · simp [h2, h1]
    · simp only [if_neg h2]
      by_cases h3 : a = "id" <;> simp [h3]

theorem applyKeys_title (f : Form) (L : List String) (n : Newsletter) :
    (applyKeys f L n).title
      = if "title" ∈ L then (f.get? "title").getD "" else n.title := by
  induction L generalizing n with
  | nil => simp [applyKeys]
  | cons a L ih =>
    show (applyKeys f L (n.setattr a ((f.get? a).getD ""))).title = _
    rw [ih]
    by_cases hL : "title" ∈ L
    · simp [hL, List.mem_cons]
    · simp only [if_neg hL]
      by_cases ha : a = "title"
      · subst ha
        simp [Newsletter.setattr_title, List.mem_cons]
      · rw [Newsletter.setattr_title, if_neg ha]
        have : ¬ "title" ∈ a :: L := by
          simp only [List.mem_cons, not_or]
          exact ⟨fun h => ha h.symm, hL⟩
        rw [if_neg this]

theorem applyKeys_body (f : Form) (L : List String) (n : Newsletter) :
    (applyKeys f L n).body
      = if "body" ∈ L then (f.get? "body").getD "" else n.body := by
  induction L generalizing n with
  | nil => simp [applyKeys]
  | cons a L ih =>
    show (applyKeys f L (n.setattr a ((f.get? a).getD ""))).body = _
    rw [ih]
    by_cases hL : "body" ∈ L
    · simp [hL, List.mem_cons]
    · simp only [if_neg hL]
      by_cases ha : a = "body"
      · subst ha
        simp [Newsletter.setattr_body, List.mem_cons]
      · rw [Newsletter.setattr_body, if_neg ha]
        have : ¬ "body" ∈ a :: L := by
          simp only [List.mem_cons, not_or]
          exact ⟨fun h => ha h.symm, hL⟩
        rw [if_neg this]

theorem applyKeys_id (f : Form) (L : List String) (n : Newsletter) :
    (applyKeys f L n).id
      = if "id" ∈ L
        then (sqliteIntCoerce? ((f.get? "id").getD "")).getD n.id
        else n.id := by
  induction L generalizing n with
  | nil => simp [applyKeys]
  | cons a L ih =>
    show (applyKeys f L (n.setattr a ((f.get? a).getD ""))).id = _
    rw [ih]
    by_cases hL : "id" ∈ L
    · simp only [if_pos hL, if_pos (List.mem_cons.mpr (Or.inr hL))]
      by_cases ha : a = "id"
      · subst ha
        rw [Newsletter.setattr_id, if_pos rfl]
        cases hc : sqliteIntCoerce? ((f.get? "id").getD "") <;> simp [hc]
      · rw [Newsletter.setattr_id, if_neg ha]
    · simp only [if_neg hL]
      by_cases ha : a = "id"
      · subst ha
        simp [Newsletter.setattr_id, List.mem_cons]
      · rw [Newsletter.setattr_id, if_neg ha]
        have : ¬ "id" ∈ a :: L := by
          simp only [List.mem_cons, not_or]
          exact ⟨fun h => ha h.symm, hL⟩
        rw [if_neg this]

theorem Form.get?_isSome_iff_mem_keys (f : Form) (k : String) :
    (f.get? k).isSome = true ↔ k ∈ f.keys := by
  unfold Form.get? Form.keys
  rw [Option.isSome_map', List.mem_dedup, List.find?_isSome]
  constructor
  · rintro ⟨kv, hkv, hk⟩
    exact List.mem_map.mpr ⟨kv, hkv, by simpa using hk⟩
  · rintro h
    obtain ⟨kv, hkv, hk⟩ := List.mem_map.mp h
    exact ⟨kv, hkv, by simpa using hk⟩

theorem patchRecord_title (f : Form) (n : Newsletter) :
    (patchRecord f n).title = (f.get? "title").getD n.title := by
  unfold patchRecord
  rw [applyKeys_title]
  by_cases h : "title" ∈ f.keys
  · have hs : (f.get? "title").isSome = true :=
      (Form.get?_isSome_iff_mem_keys f "title").mpr h
    obtain ⟨v, hv⟩ := Option.isSome_iff_exists.mp hs
    simp [h, hv]
  · have hn : f.get? "title" = none := by
      cases hv : f.get? "title" with
      | none => rfl
      | some v =>
        exact absurd ((Form.get?_isSome_iff_mem_keys f "title").mp
          (by simp [hv])) h
    simp [h, hn]

theorem patchRecord_body (f : Form) (n : Newsletter) :
    (patchRecord f n).body = (f.get? "body").getD n.body := by
  unfold patchRecord
  rw [applyKeys_body]
  by_cases h : "body" ∈ f.keys
  · have hs : (f.get? "body").isSome = true :=
      (Form.get?_isSome_iff_mem_keys f "body").mpr h
    obtain ⟨v, hv⟩ := Option.isSome_iff_exists.mp hs
    simp [h, hv]
  · have hn : f.get? "body" = none := by
      cases hv : f.get? "body" with
      | none => rfl
      | some v =>
        exact absurd ((Form.get?_isSome_iff_mem_keys f "body").mp
          (by simp [hv])) h
    simp [h, hn]

theorem patchRecord_id (f : Form) (n : Newsletter) :
    (patchRecord f n).id = ((f.get? "id").bind sqliteIntCoerce?).getD n.id := by
  unfold patchRecord
  rw [applyKeys_id]
  by_cases h : "id" ∈ f.keys
  · have hs : (f.get? "id").isSome = true :=
      (Form.get?_isSome_iff_mem_keys f "id").mpr h
    obtain ⟨v, hv⟩ := Option.isSome_iff_exists.mp hs
    cases hc : sqliteIntCoerce? v <;> simp [h, hv, hc]
  · have hn : f.get? "id" = none := by
      cases hv : f.get? "id" with
      | none => rfl
      | some v =>
        exact absurd ((Form.get?_isSome_iff_mem_keys f "id").mp
          (by simp [hv])) h
    simp [h, hn]

theorem patchRecord_idem (f : Form) (n : Newsletter) :
    patchRecord f (patchRecord f n) = patchRecord f n := by
  apply Newsletter.eq_of_fields
  · rw [patchRecord_id, patchRecord_id]
    cases h : (f.get? "id").bind sqliteIntCoerce? <;> simp [h]
  · rw [patchRecord_title, patchRecord_title]
    cases h : f.get? "title" <;> simp [h]
  · rw [patchRecord_body, patchRecord_body]
    cases h : f.get? "body" <;> simp [h]

theorem find?_congr {α : Type} (p q : α → Bool) (l : List α)
    (h : ∀ x ∈ l, p x = q x) : l.find? p = l.find? q := by
  induction l with
  | nil => rfl
  | cons a l ih =>
    simp only [List.find?]
    rw [h a (List.mem_cons_self a l)]
    cases q a with
    | true => rfl
    | false => exact ih (fun x hx => h x (List.mem_cons_of_mem a hx))

theorem find?_append_of_none {α : Type} {p : α → Bool} {l₁ l₂ : List α}
    (h : l₁.find? p = none) : (l₁ ++ l₂).find? p = l₂.find? p := by
  induction l₁ with
  | nil => rfl
  | cons a l ih =>
    simp only [List.find?] at h ⊢
    cases hp : p a with
    | true => rw [hp] at h; exact absurd h (by simp)
    | false =>
      rw [hp] at h
      simpa using ih h

theorem Store.firstById_id {s : Store} {i : Nat} {n : Newsletter}
    (h : s.firstById i = some n) : n.id = i := by
  have := List.find?_some h
  simpa using this

theorem Store.firstById_mem {s : Store} {i : Nat} {n : Newsletter}
    (h : s.firstById i = some n) : n ∈ s.rows :=
  List.mem_of_find?_eq_some h

theorem Store.wf_unique_row {s : Store} (hw : s.wf) {r r' : Newsletter}
    (hr : r ∈ s.rows) (hr' : r' ∈ s.rows) (h : r.id = r'.id) : r = r' :=
  List.inj_on_of_nodup_map hw.1 hr hr' h

/-! ### Claims -/

/-- C1: for every title `A` and body `B`, creating a record with
`title = A`, `body = B` returns the serialized record `{id, A, B}` with the
freshly assigned id, and fetching that id afterwards returns exactly
`{id, A, B}` with status 200. -/
theorem create_then_fetch_roundtrip (A B : String) (s : Store) (hw : s.wf) :
    (newsletters_post [("title", A), ("body", B)] s).1
      = Except.ok ⟨RespBody.dict ⟨s.nextId, A, B⟩, 201⟩
    ∧ (newsletter_by_id_get s.nextId
        (newsletters_post [("title", A), ("body", B)] s).2).1
      = Except.ok ⟨RespBody.dict ⟨s.nextId, A, B⟩, 200⟩ := by
  constructor
  · rfl
  · have hnone : s.rows.find? (fun r => r.id == s.nextId) = none :=
      List.find?_eq_none.mpr (fun r hr => by
        simp only [beq_iff_eq]
        exact Nat.ne_of_lt (hw.2 r hr))
    have hs2 : (newsletters_post [("title", A), ("body", B)] s).2
        = ⟨s.nextId + 1, s.rows ++ [⟨s.nextId, A, B⟩]⟩ := rfl
    rw [hs2]
    unfold newsletter_by_id_get Store.firstById
    rw [show (⟨s.nextId + 1, s.rows ++ [⟨s.nextId, A, B⟩]⟩ : Store).rows
        = s.rows ++ [⟨s.nextId, A, B⟩] from rfl,
      find?_append_of_none hnone]
    simp [List.find?]
    rfl

theorem create_then_fetch_roundtrip_witness :
    (newsletters_post [("title", "A"), ("body", "B")] Store.empty).1
      = Except.ok ⟨RespBody.dict ⟨1, "A", "B"⟩, 201⟩
    ∧ (newsletter_by_id_get 1
        (newsletters_post [("title", "A"), ("body", "B")] Store.empty).2).1
      = Except.ok ⟨RespBody.dict ⟨1, "A", "B"⟩, 200⟩ :=
  create_then_fetch_roundtrip "A" "B" Store.empty (by decide)

/-- C2 (behaviour at the failing input): fetching an id that matches no
persisted record does not produce a 404 not-found response: the handler
dereferences the missing lookup (`None.to_dict()`), raising
`AttributeError`, which surfaces as a 500-class server error. -/
theorem fetch_missing_id_crashes :
    (newsletter_by_id_get 1 Store.empty).1
      = Except.error HandlerError.attributeError
    ∧ HandlerError.attributeError.status = 500 := by decide

/-- C3: patching an existing record with a form containing only `title`
returns the record with the new title, the old body and the old id; in
general a patch leaves every field whose name is absent from the form
unchanged. -/
theorem patch_title_only_preserves_rest (s : Store) (i : Nat)
    (n : Newsletter) (T : String) (f : Form)
    (h : s.firstById i = some n) :
    (newsletter_by_id_patch i [("title", T)] s).1
      = Except.ok ⟨RespBody.dict ⟨n.id, T, n.body⟩, 201⟩
    ∧ (f.get? "title" = none → (patchRecord f n).title = n.title)
    ∧ (f.get? "body" = none → (patchRecord f n).body = n.body)
    ∧ (f.get? "id" = none → (patchRecord f n).id = n.id) := by
  refine ⟨?_, ?_, ?_, ?_⟩
  · have hn' : patchRecord [("title", T)] n = ⟨n.id, T, n.body⟩ := by
      apply Newsletter.eq_of_fields
      · rw [patchRecord_id]; rfl
      · rw [patchRecord_title]; rfl
      · rw [patchRecord_body]; rfl
    simp only [newsletter_by_id_patch, h, hn']
    simp [Newsletter.to_dict]
  · intro hf; rw [patchRecord_title, hf]; rfl
  · intro hf; rw [patchRecord_body, hf]; rfl
  · intro hf; rw [patchRecord_id, hf]; rfl

theorem patch_title_only_preserves_rest_witness :
    (newsletter_by_id_patch 1 [("title", "T")] (⟨2, [⟨1, "t", "b"⟩]⟩ : Store)).1
      = Except.ok ⟨RespBody.dict ⟨1, "T", "b"⟩, 201⟩
    ∧ ((Form.get? [] "title" = none
        → (patchRecord [] ⟨1, "t", "b"⟩).title = "t")
      ∧ (Form.get? [] "body" = none
        → (patchRecord [] ⟨1, "t", "b"⟩).body = "b")
      ∧ (Form.get? [] "id" = none
        → (patchRecord [] ⟨1, "t", "b"⟩).id = 1)) := by
  have h := patch_title_only_preserves_rest (⟨2, [⟨1, "t", "b"⟩]⟩ : Store)
    1 ⟨1, "t", "b"⟩ "T" [] (by decide)
  exact ⟨h.1, h.2.1, h.2.2.1, h.2.2.2⟩

/-- C4 (counterexample): patching an existing record with a field name
outside `{title, body}` is not rejected with a request-error: the handler
returns the serialized record with status 201 as if the patch succeeded. -/
theorem patch_unknown_field_not_rejected_cex :
    (newsletter_by_id_patch 1 [("foo", "v")] (⟨2, [⟨1, "t", "b"⟩]⟩ : Store)).1
      = Except.ok ⟨RespBody.dict ⟨1, "t", "b"⟩, 201⟩
    ∧ (newsletter_by_id_patch 1 [("foo", "v")] (⟨2, [⟨1, "t", "b"⟩]⟩ : Store)).2
      = ⟨2, [⟨1, "t", "b"⟩]⟩ := by decide

/-- C4 (amended): patching an existing record with an unknown field name
is not rejected with a 400 request-error.  For an ordinary data-style
unknown name — `foo` here, the name the counterexample traces — the
handler silently accepts the request: it returns 201 with the record's
untouched fields, and the persisted store is unchanged, the unknown field
living only as a transient instance attribute.  Special attribute names
such as `__class__` or `to_dict` instead crash the real handler with a
500-class server error — still no 400 validation rejection; they are
outside this model and nothing is asserted about them. -/
theorem patch_unknown_field_silently_ignored (s : Store) (i : Nat)
    (n : Newsletter) (v : String) (hw : s.wf)
    (h : s.firstById i = some n) :
    (newsletter_by_id_patch i [("foo", v)] s).1
      = Except.ok ⟨RespBody.dict n.to_dict, 201⟩
    ∧ (newsletter_by_id_patch i [("foo", v)] s).2 = s := by
  have hn' : patchRecord [("foo", v)] n = n := by
    apply Newsletter.eq_of_fields
    · rw [patchRecord_id]; rfl
    · rw [patchRecord_title]; rfl
    · rw [patchRecord_body]; rfl
  have hrows : s.rows.map (fun r => if r.id == n.id then n else r)
      = s.rows := by
    rw [List.map_congr_left (fun r hr => ?_), List.map_id]
    by_cases hri : r.id = n.id
    · rw [if_pos (by simpa using hri)]
      exact (Store.wf_unique_row hw hr (Store.firstById_mem h) hri).symm
    · rw [if_neg (by simpa using hri)]; rfl
  simp only [newsletter_by_id_patch, h, hn', hrows]
  simp

theorem patch_unknown_field_silently_ignored_witness :
    (newsletter_by_id_patch 1 [("foo", "w")] (⟨2, [⟨1, "t", "b"⟩]⟩ : Store)).1
      = Except.ok ⟨RespBody.dict (Newsletter.to_dict ⟨1, "t", "b"⟩), 201⟩
    ∧ (newsletter_by_id_patch 1 [("foo", "w")] (⟨2, [⟨1, "t", "b"⟩]⟩ : Store)).2
      = ⟨2, [⟨1, "t", "b"⟩]⟩ :=
  patch_unknown_field_silently_ignored ⟨2, [⟨1, "t", "b"⟩]⟩ 1 ⟨1, "t", "b"⟩
    "w" (by decide) (by decide)

/-- C5: patch is idempotent on the store: for an existing record, applying
the same patch payload twice leaves the store in the same final state as
applying it once. -/
theorem patch_idempotent (s : Store) (i : Nat) (f : Form) (n : Newsletter)
    (h : s.firstById i = some n) :
    (newsletter_by_id_patch i f (newsletter_by_id_patch i f s).2).2
      = (newsletter_by_id_patch i f s).2 := by
  have hni : n.id = i := Store.firstById_id h
  have hmem : n ∈ s.rows := Store.firstById_mem h
  by_cases hcol : (((patchRecord f n).id != n.id)
      && s.rows.any (fun r => r.id == (patchRecord f n).id)) = true
  · have h1 : (newsletter_by_id_patch i f s).2 = s := by
      simp only [newsletter_by_id_patch, h]
      rw [if_pos hcol]
    rw [h1]
    exact h1
  · have hcolF : (((patchRecord f n).id != n.id)
        && s.rows.any (fun r => r.id == (patchRecord f n).id)) = false := by
      simpa using hcol
    have h1 : (newsletter_by_id_patch i f s).2
        = ⟨s.nextId,
           s.rows.map (fun r => if r.id == n.id then patchRecord f n else r)⟩ := by
      simp only [newsletter_by_id_patch, h]
      rw [if_neg (by simp [hcolF])]
    rw [h1]
    by_cases hid : (patchRecord f n).id = n.id
    · have hfind : (⟨s.nextId,
          s.rows.map (fun r => if r.id == n.id then patchRecord f n else r)⟩
            : Store).firstById i = some (patchRecord f n) := by
        show (s.rows.map
            (fun r => if r.id == n.id then patchRecord f n else r)).find?
              (fun r => r.id == i) = some (patchRecord f n)
        rw [List.find?_map]
        rw [find?_congr _ (fun r : Newsletter => r.id == i) _ (fun r hr => ?_)]
        · rw [show s.rows.find? (fun r => r.id == i) = some n from h]
          simp
        · by_cases hri : r.id = n.id
          · simp only [Function.comp]
            rw [if_pos (by simpa using hri)]
            simp [hid, hri]
          · simp only [Function.comp]
            rw [if_neg (by simpa using hri)]
      have hrec : patchRecord f (patchRecord f n) = patchRecord f n :=
        patchRecord_idem f n
      simp only [newsletter_by_id_patch, hfind, hrec]
      rw [if_neg (by simp)]
      simp only [Prod.snd]
      congr 1
      rw [List.map_map]
      apply List.map_congr_left
      intro r hr
      simp only [Function.comp]
      by_cases hri : r.id = n.id
      · have hg1 : (if r.id == n.id then patchRecord f n else r)
            = patchRecord f n := if_pos (by simpa using hri)
        rw [hg1]
        simp
      · have hg1 : (if r.id == n.id then patchRecord f n else r) = r :=
          if_neg (by simpa using hri)
        rw [hg1]
        rw [if_neg (by simp [hid, hri])]
    · have hbne : ((patchRecord f n).id != n.id) = true := by simp [hid]
      have hfind : (⟨s.nextId,
          s.rows.map (fun r => if r.id == n.id then patchRecord f n else r)⟩
            : Store).firstById i = none := by
        show (s.rows.map
            (fun r => if r.id == n.id then patchRecord f n else r)).find?
              (fun r => r.id == i) = none
        apply List.find?_eq_none.mpr
        intro x hx
        obtain ⟨r, hr, rfl⟩ := List.mem_map.mp hx
        by_cases hri : r.id = n.id
        · rw [if_pos (by simpa using hri)]
          simp only [beq_iff_eq]
          rw [← hni]
          exact hid
        · rw [if_neg (by simpa using hri)]
          simp only [beq_iff_eq]
          rw [← hni]
          exact hri
      simp only [newsletter_by_id_patch, hfind]

theorem patch_idempotent_witness :
    (newsletter_by_id_patch 1 [("title", "X")]
        (newsletter_by_id_patch 1 [("title", "X")]
          (⟨2, [⟨1, "t", "b"⟩]⟩ : Store)).2).2
      = (newsletter_by_id_patch 1 [("title", "X")]
          (⟨2, [⟨1, "t", "b"⟩]⟩ : Store)).2 :=
  patch_idempotent ⟨2, [⟨1, "t", "b"⟩]⟩ 1 [("title", "X")] ⟨1, "t", "b"⟩
    (by decide)

/-- C6 (behaviour at the failing input): deleting a record removes it, but
a subsequent fetch of that id does not produce a 404 not-found response —
it raises `AttributeError` (500) — and a second delete of the same id does
not produce a 404 either — it raises `UnmappedInstanceError` (500).
The second delete does not succeed again. -/
theorem delete_then_fetch_and_redelete_crash :
    (newsletter_by_id_delete 1 (⟨2, [⟨1, "t", "b"⟩]⟩ : Store)).1
      = Except.ok ⟨RespBody.message "record successfully deleted", 200⟩
    ∧ (newsletter_by_id_get 1
        (newsletter_by_id_delete 1 (⟨2, [⟨1, "t", "b"⟩]⟩ : Store)).2).1
      = Except.error HandlerError.attributeError
    ∧ (newsletter_by_id_delete 1
        (newsletter_by_id_delete 1 (⟨2, [⟨1, "t", "b"⟩]⟩ : Store)).2).1
      = Except.error HandlerError.unmappedInstanceError
    ∧ HandlerError.attributeError.status = 500
    ∧ HandlerError.unmappedInstanceError.status = 500 := by decide

/-- C7: a create request whose form lacks `title` or lacks `body` is
rejected before anything is persisted: `request.form[...]` raises
`BadRequestKeyError`, an `HTTPException` rendered with status 400, and the
store is unchanged. -/
theorem create_missing_field_rejected (f : Form) (s : Store)
    (h : f.get? "title" = none ∨ f.get? "body" = none) :
    ∃ k, (newsletters_post f s).1
        = Except.error (HandlerError.badRequestKeyError k)
      ∧ HandlerError.status (HandlerError.badRequestKeyError k) = 400
      ∧ (newsletters_post f s).2 = s := by
  cases hT : f.get? "title" with
  | none =>
    exact ⟨"title", by simp [newsletters_post, Form.getItem, hT], rfl,
      by simp [newsletters_post, Form.getItem, hT]⟩
  | some t =>
    have hB : f.get? "body" = none := by
      rcases h with h | h
      · rw [hT] at h; exact absurd h (by simp)
      · exact h
    exact ⟨"body", by simp [newsletters_post, Form.getItem, hT, hB], rfl,
      by simp [newsletters_post, Form.getItem, hT, hB]⟩

theorem create_missing_field_rejected_witness :
    ∃ k, (newsletters_post [] Store.empty).1
        = Except.error (HandlerError.badRequestKeyError k)
      ∧ HandlerError.status (HandlerError.badRequestKeyError k) = 400
      ∧ (newsletters_post [] Store.empty).2 = Store.empty :=
  create_missing_field_rejected [] Store.empty (Or.inl rfl)

/-- C8 (counterexample): `id` is not immutable: a patch whose form contains
an `id` field overwrites the primary key of the existing record — here the
record with id 1 ends up persisted with id 7. -/
theorem patch_changes_id_cex :
    (newsletter_by_id_patch 1 [("id", "7")] (⟨2, [⟨1, "t", "b"⟩]⟩ : Store)).2
      = ⟨2, [⟨7, "t", "b"⟩]⟩
    ∧ (7 : Nat) ≠ 1 := by decide

/-- C8 (amended): the `id` of a persisted record is unchanged by every
patch whose form data does not contain an `id` field (and by every other
operation on other ids); only a patch payload containing `id` can
overwrite it. -/
theorem patch_without_id_field_preserves_ids (s : Store) (i : Nat) (f : Form)
    (h : f.get? "id" = none) :
    ((newsletter_by_id_patch i f s).2.rows.map (fun r => r.id))
      = s.rows.map (fun r => r.id) := by
  cases hfb : s.firstById i with
  | none => simp [newsletter_by_id_patch, hfb]
  | some n =>
    have hid : (patchRecord f n).id = n.id := by
      rw [patchRecord_id, h]; rfl
    simp only [newsletter_by_id_patch, hfb]
    rw [if_neg (by simp [hid])]
    simp only [Prod.snd]
    rw [List.map_map]
    apply List.map_congr_left
    intro r hr
    simp only [Function.comp]
    by_cases hri : r.id = n.id
    · rw [if_pos (by simpa using hri)]
      rw [hid, hri]
    · rw [if_neg (by simpa using hri)]

theorem patch_without_id_field_preserves_ids_witness :
    ((newsletter_by_id_patch 1 [("title", "X")]
        (⟨2, [⟨1, "t", "b"⟩]⟩ : Store)).2.rows.map (fun r => r.id))
      = ([⟨1, "t", "b"⟩] : List Newsletter).map (fun r => r.id) :=
  patch_without_id_field_preserves_ids ⟨2, [⟨1, "t", "b"⟩]⟩ 1
    [("title", "X")] (by decide)

theorem createMany_state (ts bs : Nat → String) (N : Nat) :
    createMany ts bs N Store.empty
      = ⟨N + 1, (List.range N).map (fun k => ⟨k + 1, ts k, bs k⟩)⟩ := by
  induction N with
  | zero => rfl
  | succ k ih =>
    show (newsletters_post [("title", ts k), ("body", bs k)]
        (createMany ts bs k Store.empty)).2 = _
    rw [ih]
    show (⟨k + 1 + 1,
        (List.range k).map (fun j => (⟨j + 1, ts j, bs j⟩ : Newsletter))
          ++ [⟨k + 1, ts k, bs k⟩]⟩ : Store) = _
    rw [List.range_succ, List.map_append]
    rfl

/-- C9: starting from the empty store, after `N` successful creates the
list-all operation returns exactly `N` serialized records, with pairwise
distinct ids. -/
theorem listing_after_n_creates (ts bs : Nat → String) (N : Nat) :
    ∃ l : List RecordDict,
      (newsletters_get (createMany ts bs N Store.empty)).1
        = Except.ok ⟨RespBody.dictList l, 200⟩
      ∧ l.length = N
      ∧ (l.map (fun d => d.id)).Nodup := by
  refine ⟨(createMany ts bs N Store.empty).rows.map Newsletter.to_dict,
    rfl, ?_, ?_⟩
  · rw [createMany_state]
    simp
  · rw [createMany_state]
    simp only [List.map_map]
    show (List.map (fun k => k + 1) (List.range N)).Nodup
    exact List.Nodup.map (fun a b hab => by omega) (List.nodup_range N)

/-- C10: the read operations are pure with respect to the store: list-all
and a successful fetch-by-id leave the persisted state exactly unchanged. -/
theorem read_operations_pure (s : Store) (i : Nat) (n : Newsletter)
    (h : s.firstById i = some n) :
    (newsletters_get s).2 = s ∧ (newsletter_by_id_get i s).2 = s :=
  ⟨rfl, by simp [newsletter_by_id_get, h]⟩

theorem read_operations_pure_witness :
    (newsletters_get ⟨2, [⟨1, "t", "b"⟩]⟩).2 = (⟨2, [⟨1, "t", "b"⟩]⟩ : Store)
    ∧ (newsletter_by_id_get 1 ⟨2, [⟨1, "t", "b"⟩]⟩).2
      = (⟨2, [⟨1, "t", "b"⟩]⟩ : Store) :=
  read_operations_pure ⟨2, [⟨1, "t", "b"⟩]⟩ 1 ⟨1, "t", "b"⟩ (by decide)
